import Mathlib

/-!
Shallow embedding of `homework.py`: a Telegram bot that polls a homework
review-status API and forwards status-change notifications.

Python values that flow through the program (JSON payloads, dictionary
records, the loop's `timestamp` variable) are modelled by `PyValue`.
Exceptions become `Except` results. External effects (the HTTP request
issued by `requests.get`, the Telegram send, and calls to `time.time()`)
are modelled by per-cycle environment oracles. Logging is observational
only and is not modelled.
-/

namespace Homework

/-- A Python value as used by the program: strings, ints, bools, `None`,
lists and string-keyed dicts (JSON decoding produces exactly these). -/
inductive PyValue where
  | str : String → PyValue
  | int : Int → PyValue
  | bool : Bool → PyValue
  | pynone : PyValue
  | list : List PyValue → PyValue
  | dict : List (String × PyValue) → PyValue

/-- Lookup in a dict (Python dicts have unique keys; first match). -/
def dictFind : List (String × PyValue) → String → Option PyValue
  | [], _ => Option.none
  | (k, v) :: rest, key => if k = key then Option.some v else dictFind rest key

/-- Python `key in d` for a dict. -/
def dictHasKey (d : List (String × PyValue)) (key : String) : Bool :=
  (dictFind d key).isSome

/-- Python `d.get(key, default)` for a dict. -/
def dictGetD (d : List (String × PyValue)) (key : String) (default : PyValue) : PyValue :=
  match dictFind d key with
  | Option.some v => v
  | Option.none => default

/-- Python `d.get(key)` for a dict: `None` when the key is absent. -/
def dictGet (d : List (String × PyValue)) (key : String) : PyValue :=
  dictGetD d key PyValue.pynone

/-- Python truthiness of a value (used by `timestamp or int(time.time())`
and by `if homework:`). -/
def pyTruthy : PyValue → Bool
  | PyValue.str s => s ≠ ""
  | PyValue.int n => n ≠ 0
  | PyValue.bool b => b
  | PyValue.pynone => false
  | PyValue.list l => !l.isEmpty
  | PyValue.dict d => !d.isEmpty

/-- Python `str()` as applied by f-string interpolation to the values the
program interpolates (names, labels: strings, `None`, numbers, bools).
The `str()` of a container is elided to a fixed placeholder; the program
never reaches that case in the claims under study. -/
def pyStr : PyValue → String
  | PyValue.str s => s
  | PyValue.int n => toString n
  | PyValue.bool b => if b then "True" else "False"
  | PyValue.pynone => "None"
  | PyValue.list _ => "[...]"
  | PyValue.dict _ => "\x7b...\x7d"

/-- Modelled from the spec: `exceptions.py` (imported by `homework.py` but
not part of the sources) defines the application error classes
`MessageError` (DeliveryError), `AnswerError` (RequestFailure),
`ParseError` and `StatusCodeError` (UnexpectedStatusCode); per the spec's
propagation policy every cycle-local error is caught at the Orchestrator's
`except Exception` boundary, so all of them are `Exception` subclasses.
`typeError`/`keyError` are the built-in `TypeError`/`KeyError` raised by
`check_response`; `libError` stands for an exception raised inside a
library call (`requests.get`, `response.json()`, `bot.send_message`),
carrying the text the library exception renders as. -/
inductive PyError where
  | messageError : String → PyError
  | answerError : String → PyError → PyError
  | parseError : String → PyError
  | statusCodeError : String → PyError
  | typeError : String → PyError
  | keyError : PyError
  | attributeError : String → PyError
  | libError : String → PyError

/-- Python `str(error)`: the single argument for one-argument exceptions,
`\x27\x27` for the argumentless `KeyError`, and the tuple rendering for the
two-argument `AnswerError`. A library exception carries its rendering
verbatim. -/
def errStr : PyError → String
  | PyError.messageError m => m
  | PyError.answerError m inner =>
      "(\x27" ++ m ++ "\x27, " ++ errStr inner ++ ")"
  | PyError.parseError m => m
  | PyError.statusCodeError m => m
  | PyError.typeError m => m
  | PyError.keyError => ""
  | PyError.attributeError m => m
  | PyError.libError m => m

/-- `HOMEWORK_VERDICTS`: the static verdict table. -/
def HOMEWORK_VERDICTS : List (String × String) :=
  [("approved", "Работа проверена: ревьюеру всё понравилось. Ура!"),
   ("reviewing", "Работа взята на проверку ревьюером."),
   ("rejected", "Работа проверена: у ревьюера есть замечания.")]

/-- Python's membership test `homework_status in HOMEWORK_VERDICTS`
together with the subsequent `HOMEWORK_VERDICTS[homework_status]` lookup:
a string key is looked up; a hashable non-string value (`None`, a number,
a bool) hashes fine but is not a key of the table; an unhashable value (a
list or a dict) makes the membership test itself raise
`TypeError: unhashable type`. -/
def verdictFor : PyValue → Except PyError (Option String)
  | PyValue.str s => Except.ok (HOMEWORK_VERDICTS.lookup s)
  | PyValue.int _ => Except.ok Option.none
  | PyValue.bool _ => Except.ok Option.none
  | PyValue.pynone => Except.ok Option.none
  | PyValue.list _ => Except.error (PyError.typeError "unhashable type: \x27list\x27")
  | PyValue.dict _ => Except.error (PyError.typeError "unhashable type: \x27dict\x27")

/-- `RETRY_PERIOD = 600`. -/
def RETRY_PERIOD : Nat := 600

/-- Outcome of the one outbound HTTP request of a cycle:
`failure` when `requests.get` itself raises (network, timeout, DNS),
`response status body` when a response with a JSON-decodable body arrives,
`badJson` when a response arrives but `response.json()` raises. -/
inductive HttpOutcome where
  | failure : String → HttpOutcome
  | response : Nat → PyValue → HttpOutcome
  | badJson : Nat → String → HttpOutcome

/-- The body of `get_api_answer`'s `try` block: build the request, issue it,
raise `StatusCodeError` when the response code is not `HTTPStatus.OK`
(200), otherwise return the decoded JSON body. -/
def get_api_answer_try (timestamp : PyValue) (nowFetch : Int)
    (outcome : HttpOutcome) : Except PyError PyValue :=
  let new_timestamp := if pyTruthy timestamp then timestamp else PyValue.int nowFetch
  match outcome with
  | HttpOutcome.failure e => Except.error (PyError.libError e)
  | HttpOutcome.response status body =>
      if status ≠ 200 then
        Except.error (PyError.statusCodeError
          ("Недоступен API по параметрам from_date = " ++ pyStr new_timestamp))
      else Except.ok body
  | HttpOutcome.badJson status e =>
      if status ≠ 200 then
        Except.error (PyError.statusCodeError
          ("Недоступен API по параметрам from_date = " ++ pyStr new_timestamp))
      else Except.error (PyError.libError e)

/-- `get_api_answer(timestamp)`: the `try` body above wrapped by
`except Exception as error: raise AnswerError(\x27Ошибка при запросе к
API\x27, error)` — every exception raised inside the `try`, the
`StatusCodeError` included, is re-raised wrapped in `AnswerError`. -/
def get_api_answer (timestamp : PyValue) (nowFetch : Int)
    (outcome : HttpOutcome) : Except PyError PyValue :=
  match get_api_answer_try timestamp nowFetch outcome with
  | Except.ok v => Except.ok v
  | Except.error e => Except.error (PyError.answerError "Ошибка при запросе к API" e)

/-- `check_response(response)`: raise `TypeError` when the response is not a
dict, `KeyError` when it lacks `homeworks` or lacks `current_date`,
`TypeError` when the `homeworks` value is not a list; otherwise return the
`homeworks` list unchanged. -/
def check_response (response : PyValue) : Except PyError (List PyValue) :=
  match response with
  | PyValue.dict d =>
      if !dictHasKey d "homeworks" || !dictHasKey d "current_date" then
        Except.error PyError.keyError
      else
        match dictGet d "homeworks" with
        | PyValue.list l => Except.ok l
        | _ => Except.error (PyError.typeError "Homeworks не является списком")
  | _ => Except.error (PyError.typeError "Ответ API не является словарем")

/-- `parse_status(homework)`: raise `ParseError` when `homework_name` is
absent; look up `lesson_name` and `status` with `.get` (absent gives
`None`); run the membership test `homework_status not in HOMEWORK_VERDICTS`
(which itself raises `TypeError` for an unhashable status) and raise
`ParseError` when the status is not a key of `HOMEWORK_VERDICTS`;
otherwise format the notification message. -/
def parse_status (homework : List (String × PyValue)) : Except PyError String :=
  if !dictHasKey homework "homework_name" then
    Except.error (PyError.parseError "В ответе API домашки нет ключа homework_name")
  else
    let homework_name := dictGet homework "homework_name"
    let sprint_name := dictGet homework "lesson_name"
    let homework_status := dictGet homework "status"
    match verdictFor homework_status with
    | Except.error e => Except.error e
    | Except.ok Option.none =>
        Except.error (PyError.parseError
          "API возвращает недокументированный статус домашней работы")
    | Except.ok (Option.some verdict) =>
        Except.ok ("Изменился статус проверки работы \"" ++ pyStr homework_name
          ++ "\" (" ++ pyStr sprint_name ++ "). " ++ verdict)

/-- `send_message(bot, message)`: the Telegram send either succeeds or the
library raises (oracle `sendErr`); a raise is logged and re-raised as
`MessageError`. -/
def send_message (sendErr : Option String) : Except PyError Unit :=
  match sendErr with
  | Option.none => Except.ok ()
  | Option.some e =>
      Except.error (PyError.messageError ("Ошибка отправки сообщения - " ++ e))

/-- The Orchestrator's per-cycle mutable state: the loop variables
`timestamp` (the Cursor; a `PyValue` because line 146 assigns it whatever
`response.get(\x27current_data\x27, int(time.time()))` returns) and
`previous_message` (LastMessage). -/
structure LoopState where
  timestamp : PyValue
  previous_message : String

/-- `main`'s initialisation: `timestamp = int(time.time())`,
`previous_message = \x27\x27`. -/
def initState (now0 : Int) : LoopState :=
  { timestamp := PyValue.int now0, previous_message := "" }

/-- The external events of one cycle: the two `int(time.time())` calls
(inside `get_api_answer` and at the cursor-update line), the HTTP outcome,
and the outcome of each of the (at most two) `bot.send_message` calls —
`Option.none` means the send succeeds, `Option.some e` means the library
raises with rendering `e`. `send1` feeds the send inside the `try` body,
`send2` the send inside the `except` handler. -/
structure CycleEnv where
  nowFetch : Int
  now : Int
  http : HttpOutcome
  send1 : Option String
  send2 : Option String

/-- How one cycle's `try` block exits: normally (with the state after it and
the message delivered by a successful send, if any), or by an exception
(with the state at the moment of the raise). -/
inductive TryExit where
  | ok : LoopState → Option String → TryExit
  | err : LoopState → PyError → TryExit

/-- The `try` body of `main`'s loop: fetch; reassign `timestamp` from
`response.get(\x27current_data\x27, int(time.time()))` (note the key: the
source reads `current_data`, not `current_date`; on a non-dict response
this attribute access raises `AttributeError` before any assignment);
validate; derive the message (interpret the first record, or the static
no-news text); if it differs from `previous_message`, send it and on
success record it as `previous_message`, else only log. A non-dict first
record makes `parse_status`'s membership test raise a built-in error,
abstracted here as `typeError`; the API's record type is a dict and no
claim exercises that case. -/
def cycle_try (env : CycleEnv) (s : LoopState) : TryExit :=
  match get_api_answer s.timestamp env.nowFetch env.http with
  | Except.error e => TryExit.err s e
  | Except.ok response =>
      match response with
      | PyValue.dict d =>
          let s1 : LoopState :=
            { s with timestamp := dictGetD d "current_data" (PyValue.int env.now) }
          match check_response response with
          | Except.error e => TryExit.err s1 e
          | Except.ok homeworks =>
              match (match homeworks with
                     | [] => Except.ok "Новых статусов у домашних работ нет"
                     | first :: _ =>
                         match first with
                         | PyValue.dict hw => parse_status hw
                         | _ => Except.error (PyError.typeError
                             "non-dict homework record")) with
              | Except.error e => TryExit.err s1 e
              | Except.ok message =>
                  if message ≠ s1.previous_message then
                    match send_message env.send1 with
                    | Except.error e => TryExit.err s1 e
                    | Except.ok _ =>
                        TryExit.ok { s1 with previous_message := message }
                          (Option.some message)
                  else TryExit.ok s1 Option.none
      | _ =>
          TryExit.err s (PyError.attributeError
            "object has no attribute get")

/-- How a cycle ends, after the `finally: time.sleep(RETRY_PERIOD)`:
`next s` — control returns to the top of `while True` with state `s`;
`crashed s e` — an exception raised inside the `except` handler (the
diagnostic send failing) propagates out of the loop after the sleep and
terminates the process, leaving state `s`. -/
inductive CycleResult where
  | next : LoopState → CycleResult
  | crashed : LoopState → PyError → CycleResult

/-- The state a cycle result carries. -/
def CycleResult.state : CycleResult → LoopState
  | CycleResult.next s => s
  | CycleResult.crashed s _ => s

/-- Whether the loop goes on to another cycle. -/
def CycleResult.isNext : CycleResult → Bool
  | CycleResult.next _ => true
  | CycleResult.crashed _ _ => false

/-- The `except Exception` handler of `main`'s loop: compose the diagnostic
`f\x27Сбой в работе программы: \x7berror\x7d\x27`, log it, and when it
differs from `previous_message` try to send it — on success record it as
`previous_message`; a raise from this send is not caught by anything and
crashes the process (after the `finally` sleep). Returns the result
together with the message delivered by a successful send, if any. -/
def handle_error (env : CycleEnv) (s : LoopState) (e : PyError) :
    CycleResult × Option String :=
  let message := "Сбой в работе программы: " ++ errStr e
  if message ≠ s.previous_message then
    match send_message env.send2 with
    | Except.error e2 => (CycleResult.crashed s e2, Option.none)
    | Except.ok _ =>
        (CycleResult.next { s with previous_message := message },
         Option.some message)
  else (CycleResult.next s, Option.none)

/-- One full iteration of `main`'s `while True`: the `try` body, then the
`except Exception` handler when it raised. Returns the result and the
message delivered by a successful send during the cycle, if any. -/
def run_cycle (env : CycleEnv) (s : LoopState) : CycleResult × Option String :=
  match cycle_try env s with
  | TryExit.ok s' d => (CycleResult.next s', d)
  | TryExit.err s1 e => handle_error env s1 e

/-- A finite prefix of the infinite loop: run one cycle per environment,
stopping early if the process crashes. Returns the final state, the
messages delivered (in order), and whether the process crashed. -/
def run_cycles : List CycleEnv → LoopState → LoopState × List String × Bool
  | [], s => (s, [], false)
  | env :: rest, s =>
      match run_cycle env s with
      | (CycleResult.next s', d) =>
          let r := run_cycles rest s'
          (r.1, d.toList ++ r.2.1, r.2.2)
      | (CycleResult.crashed s' _, d) => (s', d.toList, true)

/-! ## Claims about the Status Interpreter and the Response Validator -/

/-- C6: the interpreter applied to a record with status `approved`,
homework_name `X` and lesson_name `Y` returns exactly the string
`Изменился статус проверки работы "X" (Y). Работа проверена: ревьюеру всё
понравилось. Ура!`. -/
theorem parse_status_approved_exact :
    parse_status [("status", PyValue.str "approved"),
                  ("homework_name", PyValue.str "X"),
                  ("lesson_name", PyValue.str "Y")] =
      Except.ok "Изменился статус проверки работы \"X\" (Y). Работа проверена: ревьюеру всё понравилось. Ура!" :=
  rfl

/-- C10: a record whose status is in the verdict table and whose
`homework_name` key is present but whose `lesson_name` key is absent is
still interpreted successfully, and the parenthesized label position is
filled with the text `None` (Python's `str(None)`), not omitted. -/
theorem parse_status_missing_lesson_name (d : List (String × PyValue))
    (v : String)
    (hname : dictHasKey d "homework_name" = true)
    (hlesson : dictFind d "lesson_name" = Option.none)
    (hverdict : verdictFor (dictGet d "status") = Except.ok (Option.some v)) :
    parse_status d =
      Except.ok ("Изменился статус проверки работы \"" ++ pyStr (dictGet d "homework_name")
        ++ "\" (" ++ "None" ++ "). " ++ v) := by
  unfold parse_status
  rw [hname]
  simp only [Bool.not_true, Bool.false_eq_true, if_false, hverdict]
  have hl : dictGet d "lesson_name" = PyValue.pynone := by
    unfold dictGet dictGetD
    rw [hlesson]
  rw [hl]
  rfl

/-- Witness for C10 at a concrete record lacking `lesson_name`. -/
theorem parse_status_missing_lesson_name_witness :
    parse_status [("homework_name", PyValue.str "hw1"),
                  ("status", PyValue.str "rejected")] =
      Except.ok ("Изменился статус проверки работы \"hw1\" (None). Работа проверена: у ревьюера есть замечания.") :=
  parse_status_missing_lesson_name
    [("homework_name", PyValue.str "hw1"), ("status", PyValue.str "rejected")]
    "Работа проверена: у ревьюера есть замечания." rfl rfl rfl

/-- `check_response` on a dict, unfolded one step. -/
theorem check_response_dict_eq (d : List (String × PyValue)) :
    check_response (PyValue.dict d) =
      if !dictHasKey d "homeworks" || !dictHasKey d "current_date" then
        Except.error PyError.keyError
      else
        match dictGet d "homeworks" with
        | PyValue.list l => Except.ok l
        | _ => Except.error (PyError.typeError "Homeworks не является списком") :=
  rfl

/-- C7: `check_response` fails exactly when the payload is not a dict, or
lacks the `homeworks` key, or lacks the `current_date` key, or the
`homeworks` value is not a list; on success it returns exactly the
`homeworks` list from the payload, unchanged. -/
theorem check_response_spec (r : PyValue) :
    ((∃ e, check_response r = Except.error e) ↔
      ((∀ d, r ≠ PyValue.dict d) ∨
        ∃ d, r = PyValue.dict d ∧
          (dictHasKey d "homeworks" = false ∨ dictHasKey d "current_date" = false ∨
            ∀ l, dictGet d "homeworks" ≠ PyValue.list l)))
  ∧ (∀ d l, r = PyValue.dict d → dictHasKey d "homeworks" = true →
      dictHasKey d "current_date" = true → dictGet d "homeworks" = PyValue.list l →
      check_response r = Except.ok l) := by
  constructor
  · cases r with
    | dict d =>
        constructor
        · rintro ⟨e, he⟩
          right
          refine ⟨d, rfl, ?_⟩
          rw [check_response_dict_eq] at he
          cases h1 : dictHasKey d "homeworks" with
          | false => exact Or.inl rfl
          | true =>
              cases h2 : dictHasKey d "current_date" with
              | false => exact Or.inr (Or.inl rfl)
              | true =>
                  refine Or.inr (Or.inr fun l hl => ?_)
                  rw [hl] at he
                  simp [h1, h2] at he
        · rintro (hnd | ⟨d2, hd2, hbad⟩)
          · exact absurd rfl (hnd d)
          · injection hd2 with hdd
            subst hdd
            rw [check_response_dict_eq]
            rcases hbad with h | h | h
            · exact ⟨PyError.keyError, by simp [h]⟩
            · exact ⟨PyError.keyError, by simp [h]⟩
            · cases h1 : dictHasKey d "homeworks" with
              | false => exact ⟨PyError.keyError, by simp [h1]⟩
              | true =>
                  cases h2 : dictHasKey d "current_date" with
                  | false => exact ⟨PyError.keyError, by simp [h1, h2]⟩
                  | true =>
                      refine ⟨PyError.typeError "Homeworks не является списком", ?_⟩
                      cases hg : dictGet d "homeworks" with
                      | list l => exact absurd hg (h l)
                      | str s => simp [hg]
                      | int n => simp [hg]
                      | bool b => simp [hg]
                      | pynone => simp [hg]
                      | dict dd => simp [hg]
    | str s => exact ⟨fun _ => Or.inl (fun d h => PyValue.noConfusion h), fun _ => ⟨_, rfl⟩⟩
    | int n => exact ⟨fun _ => Or.inl (fun d h => PyValue.noConfusion h), fun _ => ⟨_, rfl⟩⟩
    | bool b => exact ⟨fun _ => Or.inl (fun d h => PyValue.noConfusion h), fun _ => ⟨_, rfl⟩⟩
    | pynone => exact ⟨fun _ => Or.inl (fun d h => PyValue.noConfusion h), fun _ => ⟨_, rfl⟩⟩
    | list l => exact ⟨fun _ => Or.inl (fun d h => PyValue.noConfusion h), fun _ => ⟨_, rfl⟩⟩
  · intro d l hd h1 h2 hl
    subst hd
    rw [check_response_dict_eq, h1, h2, hl]
    simp

/-- Witness for C7: a well-shaped payload validates to its homeworks list,
and a payload lacking `homeworks` fails. -/
theorem check_response_spec_witness :
    check_response (PyValue.dict [("homeworks", PyValue.list [PyValue.int 3]),
                                  ("current_date", PyValue.int 7)]) =
      Except.ok [PyValue.int 3]
    ∧ ∃ e, check_response (PyValue.dict [("current_date", PyValue.int 7)]) =
      Except.error e := by
  constructor
  · exact (check_response_spec (PyValue.dict [("homeworks", PyValue.list [PyValue.int 3]),
      ("current_date", PyValue.int 7)])).2 _ [PyValue.int 3] rfl rfl rfl rfl
  · exact (check_response_spec (PyValue.dict [("current_date", PyValue.int 7)])).1.mpr
      (Or.inr ⟨_, rfl, Or.inl rfl⟩)

/-- C8 (counterexample): a record whose status is the list `[1]` — a
status certainly absent from the verdict table — does not fail with
`ParseError`: the membership test `homework_status not in
HOMEWORK_VERDICTS` itself raises the built-in
`TypeError: unhashable type`. -/
theorem parse_status_unhashable_status :
    parse_status [("homework_name", PyValue.str "X"),
                  ("status", PyValue.list [PyValue.int 1])] =
      Except.error (PyError.typeError "unhashable type: \x27list\x27")
    ∧ ∀ m, parse_status [("homework_name", PyValue.str "X"),
                  ("status", PyValue.list [PyValue.int 1])] ≠
      Except.error (PyError.parseError m) := by
  constructor
  · rfl
  · intro m h
    have hval : parse_status [("homework_name", PyValue.str "X"),
        ("status", PyValue.list [PyValue.int 1])] =
        Except.error (PyError.typeError "unhashable type: \x27list\x27") := rfl
    rw [hval] at h
    injection h with h2
    exact PyError.noConfusion h2

/-- C8 (amended): the interpreter fails with `ParseError` when the record
lacks `homework_name`, and when the membership test runs to completion
with a status that is not a key of the verdict table; an unhashable
(list/dict) status instead fails with the `TypeError` raised by the
membership test itself; in every case a record whose status is not in the
verdict table never produces a notification message. -/
theorem parse_status_error_spec (d : List (String × PyValue)) :
    (dictHasKey d "homework_name" = false →
      parse_status d = Except.error
        (PyError.parseError "В ответе API домашки нет ключа homework_name"))
  ∧ (verdictFor (dictGet d "status") = Except.ok Option.none →
      (∃ m, parse_status d = Except.error (PyError.parseError m)) ∧
      ∀ msg, parse_status d ≠ Except.ok msg)
  ∧ (∀ e, dictHasKey d "homework_name" = true →
      verdictFor (dictGet d "status") = Except.error e →
      parse_status d = Except.error e)
  ∧ ((∀ v, verdictFor (dictGet d "status") ≠ Except.ok (Option.some v)) →
      ∀ msg, parse_status d ≠ Except.ok msg) := by
  refine ⟨?_, ?_, ?_, ?_⟩
  · intro h
    unfold parse_status
    rw [h]
    rfl
  · intro h
    unfold parse_status
    by_cases h1 : dictHasKey d "homework_name"
    · rw [h1]
      simp only [Bool.not_true, Bool.false_eq_true, if_false, h]
      exact ⟨⟨_, rfl⟩, fun msg hmsg => Except.noConfusion hmsg⟩
    · rw [Bool.eq_false_iff.mpr h1]
      simp only [Bool.not_false, if_true]
      exact ⟨⟨_, rfl⟩, fun msg hmsg => Except.noConfusion hmsg⟩
  · intro e h1 h2
    unfold parse_status
    rw [h1]
    simp only [Bool.not_true, Bool.false_eq_true, if_false, h2]
  · intro hv msg hmsg
    unfold parse_status at hmsg
    by_cases h1 : dictHasKey d "homework_name"
    · rw [h1] at hmsg
      simp only [Bool.not_true, Bool.false_eq_true, if_false] at hmsg
      cases hvf : verdictFor (dictGet d "status") with
      | error e =>
          rw [hvf] at hmsg
          exact Except.noConfusion hmsg
      | ok o =>
          cases o with
          | none =>
              rw [hvf] at hmsg
              exact Except.noConfusion hmsg
          | some v => exact hv v hvf
    · rw [Bool.eq_false_iff.mpr h1] at hmsg
      simp only [Bool.not_false, if_true] at hmsg
      exact Except.noConfusion hmsg

/-- Witness for the amended C8: a record with string status
`unknown_status` yields a `ParseError`; a record lacking `homework_name`
yields the name `ParseError`; a record with a dict status yields the
membership test's `TypeError`. -/
theorem parse_status_error_spec_witness :
    (∃ m, parse_status [("homework_name", PyValue.str "X"),
                        ("status", PyValue.str "unknown_status")] =
      Except.error (PyError.parseError m))
    ∧ parse_status [("status", PyValue.str "approved")] =
      Except.error (PyError.parseError "В ответе API домашки нет ключа homework_name")
    ∧ parse_status [("homework_name", PyValue.str "X"),
                    ("status", PyValue.dict [])] =
      Except.error (PyError.typeError "unhashable type: \x27dict\x27") := by
  refine ⟨?_, ?_, ?_⟩
  · exact ((parse_status_error_spec [("homework_name", PyValue.str "X"),
      ("status", PyValue.str "unknown_status")]).2.1 rfl).1
  · exact (parse_status_error_spec [("status", PyValue.str "approved")]).1 rfl
  · exact (parse_status_error_spec [("homework_name", PyValue.str "X"),
      ("status", PyValue.dict [])]).2.2.1
      (PyError.typeError "unhashable type: \x27dict\x27") rfl rfl

/-! ## Orchestrator lemmas -/

/-- The `except` handler never touches the cursor; it delivers a message
only when that message differs from `previous_message`, and
`previous_message` is updated exactly to a delivered message. -/
theorem handle_error_spec (env : CycleEnv) (s : LoopState) (e : PyError) :
    (handle_error env s e).1.state.timestamp = s.timestamp ∧
    (match handle_error env s e with
     | (r, Option.some m) => m ≠ s.previous_message ∧ r.state.previous_message = m
     | (r, Option.none) => r.state.previous_message = s.previous_message) := by
  unfold handle_error
  cases henv : env.send2 with
  | none =>
      simp only [send_message]
      split
      next hm => exact ⟨rfl, hm, rfl⟩
      next hm => exact ⟨rfl, rfl⟩
  | some err =>
      simp only [send_message]
      split
      next hm => exact ⟨rfl, rfl⟩
      next hm => exact ⟨rfl, rfl⟩

/-- The `try` body raises with `previous_message` untouched; on a normal
exit it delivers a message only when that message differs from
`previous_message`, updating `previous_message` exactly to it. -/
theorem cycle_try_spec (env : CycleEnv) (s : LoopState) :
    match cycle_try env s with
    | TryExit.err s1 _ => s1.previous_message = s.previous_message
    | TryExit.ok s' d =>
        (d = Option.none ∧ s'.previous_message = s.previous_message) ∨
        (∃ m, d = Option.some m ∧ m ≠ s.previous_message ∧ s'.previous_message = m ∧
          env.send1 = Option.none) := by
  cases hga : get_api_answer s.timestamp env.nowFetch env.http with
  | error e => simp [cycle_try, hga]
  | ok response =>
      cases response with
      | str v => simp [cycle_try, hga]
      | int v => simp [cycle_try, hga]
      | bool v => simp [cycle_try, hga]
      | pynone => simp [cycle_try, hga]
      | list v => simp [cycle_try, hga]
      | dict d =>
          cases hcr : check_response (PyValue.dict d) with
          | error e => simp [cycle_try, hga, hcr]
          | ok homeworks =>
              cases homeworks with
              | nil =>
                  by_cases hne : "Новых статусов у домашних работ нет" = s.previous_message
                  · simp [cycle_try, hga, hcr, hne]
                  · cases hs1 : env.send1 with
                    | none =>
                        simp only [cycle_try, hga, hcr, hs1, send_message]
                        simp [hne]
                    | some err =>
                        simp only [cycle_try, hga, hcr, hs1, send_message]
                        simp [hne]
              | cons first tail =>
                  cases first with
                  | str v => simp [cycle_try, hga, hcr]
                  | int v => simp [cycle_try, hga, hcr]
                  | bool v => simp [cycle_try, hga, hcr]
                  | pynone => simp [cycle_try, hga, hcr]
                  | list v => simp [cycle_try, hga, hcr]
                  | dict hw =>
                      cases hps : parse_status hw with
                      | error e => simp [cycle_try, hga, hcr, hps]
                      | ok message =>
                          by_cases hne : message = s.previous_message
                          · simp [cycle_try, hga, hcr, hps, hne]
                          · cases hs1 : env.send1 with
                            | none =>
                                simp only [cycle_try, hga, hcr, hps, hs1, send_message]
                                simp [hne]
                            | some err =>
                                simp only [cycle_try, hga, hcr, hps, hs1, send_message]
                                simp [hne]

/-- `run_cycle` unfolded on a normally-exiting `try` body. -/
theorem run_cycle_eq_ok (env : CycleEnv) (s : LoopState) (s' : LoopState)
    (d : Option String) (h : cycle_try env s = TryExit.ok s' d) :
    run_cycle env s = (CycleResult.next s', d) := by
  simp [run_cycle, h]

/-- `run_cycle` unfolded on a raising `try` body: the `except` handler
runs. -/
theorem run_cycle_eq_err (env : CycleEnv) (s : LoopState) (s1 : LoopState)
    (e : PyError) (h : cycle_try env s = TryExit.err s1 e) :
    run_cycle env s = handle_error env s1 e := by
  simp [run_cycle, h]

/-- One cycle delivers a message only when it differs from the incoming
`previous_message`, and `previous_message` after the cycle equals the
delivered message (or is unchanged when nothing was delivered). -/
theorem run_cycle_spec (env : CycleEnv) (s : LoopState) :
    match run_cycle env s with
    | (r, Option.some m) => m ≠ s.previous_message ∧ r.state.previous_message = m
    | (r, Option.none) => r.state.previous_message = s.previous_message := by
  have hct := cycle_try_spec env s
  cases hc : cycle_try env s with
  | ok s' d =>
      rw [hc] at hct
      rw [run_cycle_eq_ok env s s' d hc]
      cases d with
      | none =>
          rcases hct with ⟨_, hp⟩ | ⟨m', hm', _, _, _⟩
          · exact hp
          · exact Option.noConfusion hm'
      | some m =>
          rcases hct with ⟨hn, _⟩ | ⟨m', hm', hne, hp, _⟩
          · exact Option.noConfusion hn
          · cases Option.some.inj hm'
            exact ⟨hne, hp⟩
  | err s1 e =>
      rw [hc] at hct
      rw [run_cycle_eq_err env s s1 e hc]
      have hh := (handle_error_spec env s1 e).2
      cases hhe : handle_error env s1 e with
      | mk r d =>
          rw [hhe] at hh
          cases d with
          | none => exact hh.trans hct
          | some m =>
              rcases hh with ⟨hne, hp⟩
              exact ⟨by rw [← hct]; exact hne, hp⟩

/-! ## Claims about the Orchestrator loop -/

/-- C4: over any finite run of the loop, a message equal to the incoming
`previous_message` is never delivered, and `previous_message` tracks the
last delivered message, so no two consecutive delivered messages — the
initial `previous_message` included — are ever identical. -/
theorem no_two_consecutive_identical (envs : List CycleEnv) (s : LoopState) :
    List.Chain' (fun a b => a ≠ b)
      (s.previous_message :: (run_cycles envs s).2.1) := by
  induction envs generalizing s with
  | nil => exact List.chain'_singleton _
  | cons env rest ih =>
      have hspec := run_cycle_spec env s
      unfold run_cycles
      cases hr : run_cycle env s with
      | mk r d =>
          rw [hr] at hspec
          cases r with
          | next s' =>
              cases d with
              | none =>
                  simp only [CycleResult.state] at hspec
                  have h2 := ih s'
                  rw [hspec] at h2
                  simpa using h2
              | some m =>
                  simp only [CycleResult.state] at hspec
                  have h2 := ih s'
                  rw [hspec.2] at h2
                  simpa using List.chain'_cons.mpr ⟨Ne.symm hspec.1, h2⟩
          | crashed s' e =>
              cases d with
              | none => simp
              | some m =>
                  simp only [CycleResult.state] at hspec
                  simpa using List.chain'_cons.mpr
                    ⟨Ne.symm hspec.1, List.chain'_singleton m⟩

/-- C1 (code bug): the source reads the next cursor from the key
`current_data` — a typo for the `current_date` key its own validator
requires — so even when the report carries `current_date = 12345`, the
cursor after a successful cycle is the local current time (777 here), not
12345. -/
theorem cursor_ignores_current_date :
    (run_cycle
      { nowFetch := 50, now := 777,
        http := HttpOutcome.response 200 (PyValue.dict
          [("homeworks", PyValue.list []), ("current_date", PyValue.int 12345)]),
        send1 := Option.none, send2 := Option.none }
      (initState 10)).1.state.timestamp = PyValue.int 777
    ∧ (777 : Int) ≠ 12345 := ⟨rfl, by decide⟩

/-- C3 (code bug): on an HTTP 503 response `get_api_answer` raises
`StatusCodeError`, but its own blanket `except Exception` immediately
catches it and re-raises `AnswerError` wrapping it — so the fetch fails
with the transport-failure error `AnswerError`, never with a bare
`StatusCodeError`. -/
theorem status_503_wrapped_in_answer_error :
    get_api_answer (PyValue.int 5) 100 (HttpOutcome.response 503 (PyValue.dict [])) =
      Except.error (PyError.answerError "Ошибка при запросе к API"
        (PyError.statusCodeError "Недоступен API по параметрам from_date = 5"))
    ∧ ∀ m, get_api_answer (PyValue.int 5) 100 (HttpOutcome.response 503 (PyValue.dict [])) ≠
      Except.error (PyError.statusCodeError m) := by
  constructor
  · rfl
  · intro m h
    have hval : get_api_answer (PyValue.int 5) 100
        (HttpOutcome.response 503 (PyValue.dict [])) =
        Except.error (PyError.answerError "Ошибка при запросе к API"
          (PyError.statusCodeError "Недоступен API по параметрам from_date = 5")) := rfl
    rw [hval] at h
    injection h with h2
    exact PyError.noConfusion h2

/-- C2 (counterexample): a cycle whose fetch fails and whose diagnostic
relay also fails crashes the process — the `MessageError` raised inside
the `except` handler is caught by nothing, so after the `finally` sleep
the loop does not begin a next cycle. -/
theorem crash_when_diagnostic_send_fails :
    (run_cycle
      { nowFetch := 50, now := 777, http := HttpOutcome.failure "ConnectionError",
        send1 := Option.none, send2 := Option.some "Unauthorized" }
      (initState 10)).1 =
      CycleResult.crashed (initState 10)
        (PyError.messageError "Ошибка отправки сообщения - Unauthorized")
    ∧ (run_cycle
      { nowFetch := 50, now := 777, http := HttpOutcome.failure "ConnectionError",
        send1 := Option.none, send2 := Option.some "Unauthorized" }
      (initState 10)).1.isNext = false := ⟨rfl, rfl⟩

/-- C2 (amended): every error raised in the cycle body is caught by the
loop's handler, and the loop proceeds to the next cycle whenever the
diagnostic relay does not itself fail (it succeeds or is skipped by
de-duplication); conversely, the only way a cycle fails to reach the next
iteration is a failing send inside the handler. -/
theorem cycle_errors_contained (env : CycleEnv) (s : LoopState) :
    (env.send2 = Option.none → (run_cycle env s).1.isNext = true)
    ∧ ((run_cycle env s).1.isNext = false → ∃ err, env.send2 = Option.some err) := by
  cases hc : cycle_try env s with
  | ok s' d =>
      rw [run_cycle_eq_ok env s s' d hc]
      exact ⟨fun _ => rfl, fun h => Bool.noConfusion h⟩
  | err s1 e =>
      rw [run_cycle_eq_err env s s1 e hc]
      unfold handle_error
      cases henv : env.send2 with
      | none =>
          simp only [send_message]
          split
          · exact ⟨fun _ => rfl, fun h => Bool.noConfusion h⟩
          · exact ⟨fun _ => rfl, fun h => Bool.noConfusion h⟩
      | some err =>
          simp only [send_message]
          split
          · exact ⟨fun h => Option.noConfusion h, fun _ => ⟨err, rfl⟩⟩
          · exact ⟨fun _ => rfl, fun h => Bool.noConfusion h⟩

/-- Witness for the amended C2: with a succeeding diagnostic channel, a
cycle whose fetch fails still reaches the next iteration. -/
theorem cycle_errors_contained_witness :
    (run_cycle
      { nowFetch := 50, now := 777, http := HttpOutcome.failure "ConnectionError",
        send1 := Option.none, send2 := Option.none }
      (initState 10)).1.isNext = true :=
  (cycle_errors_contained
    { nowFetch := 50, now := 777, http := HttpOutcome.failure "ConnectionError",
      send1 := Option.none, send2 := Option.none }
    (initState 10)).1 rfl

/-- C5 (counterexample): a cycle that fails with `SchemaError` does change
the Cursor: the cursor is reassigned (line 146 runs before
`check_response`) to the local current time 999, where it was 5 before the
cycle. -/
theorem cursor_changed_on_schema_error :
    (run_cycle
      { nowFetch := 50, now := 999,
        http := HttpOutcome.response 200 (PyValue.dict [("foo", PyValue.int 1)]),
        send1 := Option.none, send2 := Option.none }
      { timestamp := PyValue.int 5, previous_message := "" }).1.state.timestamp =
      PyValue.int 999
    ∧ (∃ e, check_response (PyValue.dict [("foo", PyValue.int 1)]) = Except.error e)
    ∧ (999 : Int) ≠ 5 := ⟨rfl, ⟨PyError.keyError, rfl⟩, by decide⟩

/-- C5 (amended): a cycle failing with `RequestFailure`/
`UnexpectedStatusCode` (the fetch raised) leaves the Cursor unchanged; but
a cycle whose fetch succeeded and whose validation failed has already
reassigned the Cursor to `response.get(\x27current_data\x27,
int(time.time()))` — the response's `current_data` value, or the local
current time — before the `SchemaError` is raised. -/
theorem cursor_frame_amended (env : CycleEnv) (s : LoopState) :
    (∀ e, get_api_answer s.timestamp env.nowFetch env.http = Except.error e →
      (run_cycle env s).1.state.timestamp = s.timestamp)
    ∧ (∀ d e, get_api_answer s.timestamp env.nowFetch env.http =
          Except.ok (PyValue.dict d) →
        check_response (PyValue.dict d) = Except.error e →
        (run_cycle env s).1.state.timestamp =
          dictGetD d "current_data" (PyValue.int env.now)) := by
  constructor
  · intro e h
    have hct : cycle_try env s = TryExit.err s e := by simp [cycle_try, h]
    rw [run_cycle_eq_err env s s e hct]
    exact (handle_error_spec env s e).1
  · intro d e hga hcr
    have hct : cycle_try env s = TryExit.err
        { s with timestamp := dictGetD d "current_data" (PyValue.int env.now) } e := by
      simp [cycle_try, hga, hcr]
    rw [run_cycle_eq_err env s _ e hct]
    exact (handle_error_spec env _ e).1

/-- Witness for the amended C5: a cycle whose fetch fails leaves the
cursor at its previous value 5. -/
theorem cursor_frame_amended_witness :
    (run_cycle
      { nowFetch := 50, now := 999, http := HttpOutcome.failure "timeout",
        send1 := Option.none, send2 := Option.none }
      { timestamp := PyValue.int 5, previous_message := "" }).1.state.timestamp =
      PyValue.int 5 :=
  (cursor_frame_amended
    { nowFetch := 50, now := 999, http := HttpOutcome.failure "timeout",
      send1 := Option.none, send2 := Option.none }
    { timestamp := PyValue.int 5, previous_message := "" }).1
    (PyError.answerError "Ошибка при запросе к API" (PyError.libError "timeout")) rfl

/-- C9 (counterexample): when delivery of the normal cycle message fails,
the `MessageError` reaches the loop handler, which composes a diagnostic
about the delivery failure and does attempt (and here achieve) its
delivery — contradicting that no diagnostic notification about the
delivery failure is attempted. -/
theorem delivery_failure_relays_diagnostic :
    run_cycle
      { nowFetch := 50, now := 7,
        http := HttpOutcome.response 200 (PyValue.dict
          [("homeworks", PyValue.list []), ("current_date", PyValue.int 1)]),
        send1 := Option.some "boom", send2 := Option.none }
      { timestamp := PyValue.int 5, previous_message := "x" } =
      (CycleResult.next
        { timestamp := PyValue.int 7,
          previous_message := "Сбой в работе программы: Ошибка отправки сообщения - boom" },
       Option.some "Сбой в работе программы: Ошибка отправки сообщения - boom") := rfl

/-- C9 (amended): on a failing send, (a) the `try` body never records the
undelivered message — with a failing normal-send oracle a normal exit
delivers nothing and leaves `previous_message` unchanged; (b) a
`MessageError` raised in the `try` body leaves `previous_message` as it
was and is handed to the generic `except` handler; (c) the handler only
ever sets `previous_message` to its own `Сбой в работе программы: …`
diagnostic (or leaves it unchanged), and only ever delivers that
diagnostic — i.e. the delivery failure is retried-not-recorded, but it
does propagate to a diagnostic relay attempt instead of stopping at a log
line. -/
theorem delivery_error_handling_amended (env : CycleEnv) (s : LoopState) :
    (∀ e s' d, env.send1 = Option.some e → cycle_try env s = TryExit.ok s' d →
      d = Option.none ∧ s'.previous_message = s.previous_message)
    ∧ (∀ s1 m, cycle_try env s = TryExit.err s1 (PyError.messageError m) →
        s1.previous_message = s.previous_message ∧
        run_cycle env s = handle_error env s1 (PyError.messageError m))
    ∧ (∀ e r d2, handle_error env s e = (r, d2) →
        (r.state.previous_message = s.previous_message ∨
          r.state.previous_message = "Сбой в работе программы: " ++ errStr e) ∧
        (d2 = Option.none ∨
          d2 = Option.some ("Сбой в работе программы: " ++ errStr e))) := by
  refine ⟨?_, ?_, ?_⟩
  · intro e s' d hs1 hok
    have hct := cycle_try_spec env s
    rw [hok] at hct
    rcases hct with ⟨hd, hp⟩ | ⟨m, _, _, _, hnone⟩
    · exact ⟨hd, hp⟩
    · rw [hs1] at hnone
      exact Option.noConfusion hnone
  · intro s1 m h
    have hct := cycle_try_spec env s
    rw [h] at hct
    exact ⟨hct, run_cycle_eq_err env s s1 _ h⟩
  · intro e r d2 h
    unfold handle_error at h
    cases henv : env.send2 with
    | none =>
        rw [henv] at h
        simp only [send_message] at h
        split at h
        · injection h with h1 h2
          subst h1
          subst h2
          exact ⟨Or.inr rfl, Or.inr rfl⟩
        · injection h with h1 h2
          subst h1
          subst h2
          exact ⟨Or.inl rfl, Or.inl rfl⟩
    | some err =>
        rw [henv] at h
        simp only [send_message] at h
        split at h
        · injection h with h1 h2
          subst h1
          subst h2
          exact ⟨Or.inl rfl, Or.inl rfl⟩
        · injection h with h1 h2
          subst h1
          subst h2
          exact ⟨Or.inl rfl, Or.inl rfl⟩

/-- Witness for the amended C9, at the counterexample's cycle: the failed
message is not recorded (the state at the raise still carries the old
`previous_message` "x") and the handler is what runs next. -/
theorem delivery_error_handling_amended_witness :
    ({ timestamp := PyValue.int 7, previous_message := "x" } : LoopState).previous_message =
      ({ timestamp := PyValue.int 5, previous_message := "x" } : LoopState).previous_message
    ∧ run_cycle
        { nowFetch := 50, now := 7,
          http := HttpOutcome.response 200 (PyValue.dict
            [("homeworks", PyValue.list []), ("current_date", PyValue.int 1)]),
          send1 := Option.some "boom", send2 := Option.none }
        { timestamp := PyValue.int 5, previous_message := "x" } =
      handle_error
        { nowFetch := 50, now := 7,
          http := HttpOutcome.response 200 (PyValue.dict
            [("homeworks", PyValue.list []), ("current_date", PyValue.int 1)]),
          send1 := Option.some "boom", send2 := Option.none }
        { timestamp := PyValue.int 7, previous_message := "x" }
        (PyError.messageError "Ошибка отправки сообщения - boom") :=
  (delivery_error_handling_amended
    { nowFetch := 50, now := 7,
      http := HttpOutcome.response 200 (PyValue.dict
        [("homeworks", PyValue.list []), ("current_date", PyValue.int 1)]),
      send1 := Option.some "boom", send2 := Option.none }
    { timestamp := PyValue.int 5, previous_message := "x" }).2.1
    { timestamp := PyValue.int 7, previous_message := "x" }
    "Ошибка отправки сообщения - boom" rfl

end Homework
